import Mathlib

/-!
Verification of the asynchronous video-generation job flow of the backend:
the `Video` record model (src/models/videos.js), the job runner
(`VideoGenerationService.generateVideo` in src/services/videoservice.js and
its near-duplicate in src/unnamed/part_000) and the progress notifier
(`emitProgress`, Socket.IO rooms keyed by owning user).
-/

namespace Backend

/-- The `status` enum of the Video model: ENUM('pending', 'processing',
'completed', 'failed'), default 'pending'. -/
inductive Status where
  | pending
  | processing
  | completed
  | failed
deriving DecidableEq, Repr

/-- The persisted Video record (src/models/videos.js).  The JSON `metadata`
column is represented by the two keys the job flow reads and writes:
`metadata.error` (written by `markAsFailed`) and `metadata.lastStatus`
(written by the service-level `updateProgress`).  Nullable columns are
`Option`; `null` is `none`. -/
structure Video where
  id : String
  title : String
  description : Option String
  prompt : String
  videoUrl : Option String
  thumbnailUrl : Option String
  duration : Option Int
  resolution : String
  fps : Int
  status : Status
  processingProgress : Int
  style : Option String
  mood : Option String
  category : Option String
  tags : List String
  metadataError : Option String
  metadataLastStatus : Option String
  isPublic : Bool
  views : Int
  likes : Int
  userId : String
  scriptId : Option String
deriving DecidableEq, Repr

/-- JavaScript truthiness of a nullable string: `null`/`undefined` and the
empty string are falsy. -/
def strTruthy : Option String → Bool
  | none => false
  | some s => !s.isEmpty

/-- `Video.prototype.updateProgress` (src/models/videos.js lines 136-139):
`this.processingProgress = Math.min(100, Math.max(0, progress)); await this.save();` -/
def Video.updateProgress (v : Video) (progress : Int) : Video :=
  { v with processingProgress := min 100 (max 0 progress) }

/-- `Video.prototype.markAsCompleted` (src/models/videos.js lines 141-149):
sets status, progress 100 and videoUrl; sets thumbnailUrl only when the
argument is truthy (`if (thumbnailUrl)`). -/
def Video.markAsCompleted (v : Video) (videoUrl : String) (thumbnailUrl : Option String) : Video :=
  let v1 := { v with status := Status.completed, processingProgress := 100,
                     videoUrl := some videoUrl }
  if strTruthy thumbnailUrl then { v1 with thumbnailUrl := thumbnailUrl } else v1

/-- `Video.prototype.markAsFailed` (src/models/videos.js lines 151-157):
sets status to failed and, when an error was given, records its message
under `metadata.error` (`error.message || error`).  The error argument is
represented by its message string. -/
def Video.markAsFailed (v : Video) (error : Option String) : Video :=
  match error with
  | some e => { v with status := Status.failed, metadataError := some e }
  | none => { v with status := Status.failed }

deriving instance DecidableEq for Except

/-- A Socket.IO event emitted to the room `user-<userId>` of the owning
user: per-phase `video_progress` events carry a percentage, the terminal
`video_completed` and `video_failed` events of the videoservice.js runner
carry none. -/
inductive SocketEvent where
  | videoProgress (userId videoId : String) (progress : Int) (message : String)
  | videoCompleted (userId videoId : String) (videoUrl thumbnailUrl : String)
  | videoFailed (userId videoId : String) (error : String)
deriving DecidableEq, Repr

/-- The percentage carried by an event, when it carries one. -/
def SocketEvent.progressPct : SocketEvent → Option Int
  | .videoProgress _ _ p _ => some p
  | _ => none

/-- The percentages of a run's notifications, in emission order. -/
def progressPcts (evs : List SocketEvent) : List Int :=
  evs.filterMap SocketEvent.progressPct

/-- The outcome of one invocation of a runner: the job record left in the
store (`none` when no record exists for the id), the emitted events and the
statuses written to the record, both in order, and whether the call
returned normally or propagated an exception to its caller. -/
structure RunOutcome where
  record : Option Video
  events : List SocketEvent
  statusWrites : List Status
  result : Except String Unit
deriving DecidableEq, Repr

/-- The fixed phase list of the videoservice.js runner (lines 52-66): each
phase persists its target percentage and message via the service-level
`updateProgress` and then performs its work. -/
def servicePhases : List (Int × String) :=
  [(10, "Enhancing prompt..."), (30, "Creating video structure..."),
   (70, "Generating video content..."), (90, "Processing and uploading...")]

/-- Failure injection for a run: `failAt k = some msg` means the work of
phase `k` raises an exception with message `msg`; exceptions come from the
awaited phase work (OpenAI calls, upload, DB writes), treated uniformly by
the runner's catch-all. -/
def failOnly (n : Nat) (msg : String) : Nat → Option String :=
  fun k => if k = n then some msg else none

/-- The phase loop of videoservice.js `generateVideo` (lines 52-66).  At
phase `k` the service-level `updateProgress` (lines 104-117) persists the
phase percentage and message (`metadata.lastStatus`) and emits a
`video_progress` event; then the phase work runs and may throw.  Returns
the record state, the emitted events and the first exception, if any. -/
def runServicePhases (failAt : Nat → Option String) :
    Video → Nat → List (Int × String) → Video × List SocketEvent × Option String
  | v, _, [] => (v, [], none)
  | v, k, (pct, msg) :: rest =>
    let v1 := { v with processingProgress := pct, metadataLastStatus := some msg }
    let ev := SocketEvent.videoProgress v1.userId v1.id pct msg
    match failAt k with
    | some err => (v1, [ev], some err)
    | none =>
      let r := runServicePhases failAt v1 (k + 1) rest
      (r.1, ev :: r.2.1, r.2.2)

/-- `VideoGenerationService.generateVideo` of src/services/videoservice.js
(lines 18-101).  `db` is the `findByPk` result for the id; `videoUrl` and
`thumbnailUrl` are the URLs produced by `processAndUpload`.  Missing record:
throws `Video not found`, the catch block finds no record to mark and
rethrows.  Otherwise: writes status processing / progress 0, emits a
progress-0 event, runs the phases; on success calls `markAsCompleted` and
emits `video_completed`; on an exception reloads the record, calls
`markAsFailed`, emits `video_failed` and rethrows (`throw error`). -/
def generateVideo (db : Option Video) (failAt : Nat → Option String)
    (videoUrl thumbnailUrl : String) : RunOutcome :=
  match db with
  | none =>
    { record := none, events := [], statusWrites := [],
      result := Except.error "Video not found" }
  | some video =>
    let v0 := { video with status := Status.processing, processingProgress := 0 }
    let e0 := SocketEvent.videoProgress v0.userId v0.id 0 "processing"
    let r := runServicePhases failAt v0 0 servicePhases
    match r.2.2 with
    | none =>
      let v2 := r.1.markAsCompleted videoUrl (some thumbnailUrl)
      { record := some v2,
        events := e0 :: r.2.1 ++
          [SocketEvent.videoCompleted v2.userId v2.id videoUrl thumbnailUrl],
        statusWrites := [Status.processing, Status.completed],
        result := Except.ok () }
    | some err =>
      let v2 := r.1.markAsFailed (some err)
      { record := some v2,
        events := e0 :: r.2.1 ++ [SocketEvent.videoFailed v2.userId v2.id err],
        statusWrites := [Status.processing, Status.failed],
        result := Except.error err }

/-- The fixed step list of the part_000 runner (`steps`, lines 29-35):
progress percentage and message per simulated AI processing step. -/
def p0Steps : List (Int × String) :=
  [(25, "Analyzing prompt"), (50, "Generating scenes"), (75, "Rendering video"),
   (90, "Adding effects"), (100, "Finalizing")]

/-- `baseUrls` of part_000 `generateMockVideoUrl`. -/
def p0BaseUrls : List String :=
  ["https://sample-videos.com/zip/10/mp4/SampleVideo_1280x720_1mb.mp4",
   "https://sample-videos.com/zip/10/mp4/SampleVideo_1280x720_2mb.mp4",
   "https://sample-videos.com/zip/10/mp4/SampleVideo_1920x1080_1mb.mp4",
   "https://sample-videos.com/zip/10/mp4/SampleVideo_1280x720_5mb.mp4"]

/-- `colors` of part_000 `generateMockThumbnailUrl`. -/
def p0Colors : List String := ["4F46E5", "7C3AED", "059669", "DC2626", "F59E0B"]

/-- `videoId.charCodeAt(0)` for the non-empty ids the mock URL pickers are
called with. -/
def charCodeAt0 (s : String) : Nat := (s.toList.headD ' ').toNat

/-- part_000 `generateMockVideoUrl`: picks a base URL by the first
character code of the id, modulo the list length. -/
def generateMockVideoUrl (videoId : String) : String :=
  (p0BaseUrls.get? (charCodeAt0 videoId % p0BaseUrls.length)).getD ""

/-- part_000 `generateMockThumbnailUrl`: picks a placeholder color by the
first character code of the id, modulo the list length. -/
def generateMockThumbnailUrl (videoId : String) : String :=
  let color := (p0Colors.get? (charCodeAt0 videoId % p0Colors.length)).getD ""
  "https://via.placeholder.com/1280x720/" ++ color ++ "/FFFFFF?text=AI+Generated+Video"

/-- The step loop of the part_000 runner (lines 37-41): at step `k`,
`video.update` persists the step percentage and then `emitProgress` emits
it; an exception injected at step `k` (a failing DB write) occurs before
that step records anything. -/
def runP0Steps (failAt : Nat → Option String) :
    Video → Nat → List (Int × String) → Video × List SocketEvent × Option String
  | v, _, [] => (v, [], none)
  | v, k, (pct, msg) :: rest =>
    match failAt k with
    | some err => (v, [], some err)
    | none =>
      let v1 := { v with processingProgress := pct }
      let ev := SocketEvent.videoProgress v1.userId v1.id pct msg
      let r := runP0Steps failAt v1 (k + 1) rest
      (r.1, ev :: r.2.1, r.2.2)

/-- `VideoGenerationService.generateVideo` of src/unnamed/part_000 (lines
10-80).  Missing record: throws `Video <id> not found` and rethrows from
the catch block.  Otherwise: writes status processing / progress 10, emits
(10, Processing started), runs the five steps; on success computes the mock
URLs, calls `markAsCompleted` and emits (100, Video completed
successfully); on an exception reloads the record, calls `markAsFailed`,
emits (0, Video generation failed) and rethrows. -/
def generateVideoP0 (videoId : String) (db : Option Video)
    (failAt : Nat → Option String) : RunOutcome :=
  match db with
  | none =>
    { record := none, events := [], statusWrites := [],
      result := Except.error ("Video " ++ videoId ++ " not found") }
  | some video =>
    let v0 := { video with status := Status.processing, processingProgress := 10 }
    let e0 := SocketEvent.videoProgress v0.userId videoId 10 "Processing started"
    let r := runP0Steps failAt v0 0 p0Steps
    match r.2.2 with
    | none =>
      let vUrl := generateMockVideoUrl videoId
      let tUrl := generateMockThumbnailUrl videoId
      let v2 := r.1.markAsCompleted vUrl (some tUrl)
      { record := some v2,
        events := e0 :: r.2.1 ++
          [SocketEvent.videoProgress v2.userId videoId 100 "Video completed successfully"],
        statusWrites := [Status.processing, Status.completed],
        result := Except.ok () }
    | some err =>
      let v2 := r.1.markAsFailed (some err)
      { record := some v2,
        events := e0 :: r.2.1 ++
          [SocketEvent.videoProgress v2.userId videoId 0 "Video generation failed"],
        statusWrites := [Status.processing, Status.failed],
        result := Except.error err }

/-- The Socket.IO fan-out registry: rooms (named `user-<userId>`, joined
by the `join-room` handler in src/server.js lines 219-222) mapped to the
connection ids currently subscribed. -/
structure Notifier where
  rooms : List (String × List String)
deriving DecidableEq, Repr

/-- The connections currently subscribed to a room; an unknown room has
none. -/
def Notifier.subscribersOf (n : Notifier) (room : String) : List String :=
  match n.rooms.lookup room with
  | some subs => subs
  | none => []

/-- `io.to(user-<userId>).emit(event)`: delivers the event to every
connection in the owner's room; with zero subscribers the broadcast
delivers to nobody and returns. -/
def Notifier.publish (n : Notifier) (userId : String) (ev : SocketEvent) :
    List (String × SocketEvent) :=
  (n.subscribersOf ("user-" ++ userId)).map (fun s => (s, ev))

/-- The deliveries performed and the warning logged by one notification
attempt; a total value — no exception leaves the notifier. -/
structure EmitResult where
  deliveries : List (String × SocketEvent)
  warning : Option String
deriving DecidableEq, Repr

/-- `VideoGenerationService.emitProgress` of src/unnamed/part_000 (lines
143-158): when no Socket.IO instance is attached (`if (io)`) nothing is
emitted; otherwise the event is broadcast to the owner's room, and any
exception raised by the broadcast (`deliverFail`) is caught, logged as a
warning and absorbed — it never propagates to the job runner. -/
def emitProgress (io : Option Notifier) (deliverFail : Option String)
    (userId videoId : String) (progress : Int) (message : String) : EmitResult :=
  match io with
  | none => { deliveries := [], warning := none }
  | some n =>
    match deliverFail with
    | some err => { deliveries := [], warning := some err }
    | none =>
      { deliveries := n.publish userId (SocketEvent.videoProgress userId videoId progress message),
        warning := none }

/-- A concrete pending job record, as the request-handling layer creates it
(status pending, progress 0, empty metadata). -/
def sampleVideo : Video :=
  { id := "a1", title := "demo", description := none, prompt := "a rocket launch",
    videoUrl := none, thumbnailUrl := none, duration := some 30,
    resolution := "1920x1080", fps := 30, status := Status.pending,
    processingProgress := 0, style := none, mood := none, category := none,
    tags := [], metadataError := none, metadataLastStatus := none,
    isPublic := false, views := 0, likes := 0, userId := "u1", scriptId := none }

/-- The same record after a successful run: status completed. -/
def completedVideo : Video := { sampleVideo with status := Status.completed }

/-- The same record after a failed run: status failed, with the failure
reason recorded under `metadata.error`. -/
def failedVideo : Video :=
  { sampleVideo with status := Status.failed, metadataError := some "boom" }

/-- A notifier with no rooms, hence no subscribers for any owner. -/
def emptyNotifier : Notifier := { rooms := [] }

/-- Claim C1 fails on the code: `generateVideo` on a job whose status is
already completed does not fail with InvalidState — it returns normally
(result ok), emits all six events (so the phases were re-executed), and
leaves the record changed.  There is no pending-state guard anywhere in
the runner. -/
theorem generateVideo_noInvalidState_cex :
    (generateVideo (some completedVideo) (fun _ => none) "u" "t").result = Except.ok () ∧
    (generateVideo (some completedVideo) (fun _ => none) "u" "t").events.length = 6 ∧
    (generateVideo (some completedVideo) (fun _ => none) "u" "t").record ≠
      some completedVideo := by
  refine ⟨rfl, rfl, ?_⟩
  decide

/-- Claim C1, amended: the runner has no pending-state guard.  Invoking
`generateVideo` on a job whose status is not pending behaves exactly as on
the same job with status pending — the initial status is immediately
overwritten with processing, the phases are re-executed (at least one
event is always emitted) and the record is mutated; nothing fails with
InvalidState. -/
theorem generateVideo_noPendingGuard (v : Video) (failAt : Nat → Option String)
    (u t : String) (h : v.status ≠ Status.pending) :
    generateVideo (some v) failAt u t =
      generateVideo (some { v with status := Status.pending }) failAt u t ∧
    (generateVideo (some v) failAt u t).events ≠ [] := by
  constructor
  · rfl
  · simp only [generateVideo]
    split <;> simp

/-- Witness for the amended C1 theorem at a concrete completed job. -/
theorem generateVideo_noPendingGuard_witness :
    completedVideo.status ≠ Status.pending ∧
    (generateVideo (some completedVideo) (fun _ => none) "u" "t" =
        generateVideo (some { completedVideo with status := Status.pending })
          (fun _ => none) "u" "t" ∧
      (generateVideo (some completedVideo) (fun _ => none) "u" "t").events ≠ []) :=
  ⟨by decide,
    generateVideo_noPendingGuard completedVideo (fun _ => none) "u" "t" (by decide)⟩

/-- Claim C2 fails on the code: invoking the part_000 runner on a job in
the terminal state completed (with a failing first step) writes processing
and then failed onto the record — the job is moved out of a terminal
state, because no operation guards terminal states. -/
theorem terminal_not_guarded_cex :
    (generateVideoP0 "a1" (some completedVideo) (failOnly 0 "boom")).statusWrites =
      [Status.processing, Status.failed] ∧
    ((generateVideoP0 "a1" (some completedVideo) (failOnly 0 "boom")).record.map
      Video.status) = some Status.failed :=
  ⟨rfl, rfl⟩

/-- Claim C2, amended: for a run invoked on a pending job, the statuses
written follow the allowed chain — processing first, then exactly one of
completed or failed — in both runners.  The runner itself, however, never
inspects the prior status, so the chain is not protected against a start
from a terminal state. -/
theorem statusWrites_from_pending (v : Video) (failAt : Nat → Option String)
    (u t vid : String) (h : v.status = Status.pending) :
    ((generateVideo (some v) failAt u t).statusWrites =
        [Status.processing, Status.completed] ∨
      (generateVideo (some v) failAt u t).statusWrites =
        [Status.processing, Status.failed]) ∧
    ((generateVideoP0 vid (some v) failAt).statusWrites =
        [Status.processing, Status.completed] ∨
      (generateVideoP0 vid (some v) failAt).statusWrites =
        [Status.processing, Status.failed]) := by
  constructor
  · simp only [generateVideo]
    split
    · left; rfl
    · right; rfl
  · simp only [generateVideoP0]
    split
    · left; rfl
    · right; rfl

/-- Witness for the amended C2 theorem at a concrete pending job. -/
theorem statusWrites_from_pending_witness :
    sampleVideo.status = Status.pending ∧
    (((generateVideo (some sampleVideo) (fun _ => none) "u" "t").statusWrites =
        [Status.processing, Status.completed] ∨
      (generateVideo (some sampleVideo) (fun _ => none) "u" "t").statusWrites =
        [Status.processing, Status.failed]) ∧
     ((generateVideoP0 "a1" (some sampleVideo) (fun _ => none)).statusWrites =
        [Status.processing, Status.completed] ∨
      (generateVideoP0 "a1" (some sampleVideo) (fun _ => none)).statusWrites =
        [Status.processing, Status.failed])) :=
  ⟨rfl, statusWrites_from_pending sampleVideo (fun _ => none) "u" "t" "a1" rfl⟩

/-- Claim C3 fails on the code: a phase exception is not absorbed by the
runner — the catch block ends with `throw error`, so the exception is
re-raised to the caller of start, as this concrete failing run shows. -/
theorem error_rethrown_cex :
    (generateVideo (some sampleVideo) (failOnly 2 "boom") "u" "t").result =
      Except.error "boom" := rfl

/-- Claim C3, amended: when a phase raises an exception, the runner sets
the job status to failed, records the exception message as the failure
reason (`metadata.error`), sends a final failed notification — and then
RE-RAISES the exception to the caller of start (`throw error` at the end
of the catch block), rather than absorbing it. -/
theorem failed_run_recorded_and_rethrown (v : Video) (n : Nat) (msg u t : String)
    (h : n < servicePhases.length) :
    ∃ vf, (generateVideo (some v) (failOnly n msg) u t).record = some vf ∧
      vf.status = Status.failed ∧ vf.metadataError = some msg ∧
      (generateVideo (some v) (failOnly n msg) u t).events.getLast? =
        some (SocketEvent.videoFailed v.userId v.id msg) ∧
      (generateVideo (some v) (failOnly n msg) u t).result = Except.error msg := by
  rcases n with _ | _ | _ | _ | m
  · exact ⟨_, rfl, rfl, rfl, by simp [generateVideo, runServicePhases, servicePhases,
      failOnly, Video.markAsFailed, List.getLast?], rfl⟩
  · exact ⟨_, rfl, rfl, rfl, by simp [generateVideo, runServicePhases, servicePhases,
      failOnly, Video.markAsFailed, List.getLast?], rfl⟩
  · exact ⟨_, rfl, rfl, rfl, by simp [generateVideo, runServicePhases, servicePhases,
      failOnly, Video.markAsFailed, List.getLast?], rfl⟩
  · exact ⟨_, rfl, rfl, rfl, by simp [generateVideo, runServicePhases, servicePhases,
      failOnly, Video.markAsFailed, List.getLast?], rfl⟩
  · exact absurd h (by simp [servicePhases])

/-- Witness for the amended C3 theorem at a concrete run failing in phase 2. -/
theorem failed_run_recorded_and_rethrown_witness :
    ∃ vf, (generateVideo (some sampleVideo) (failOnly 2 "down") "u" "t").record = some vf ∧
      vf.status = Status.failed ∧ vf.metadataError = some "down" ∧
      (generateVideo (some sampleVideo) (failOnly 2 "down") "u" "t").events.getLast? =
        some (SocketEvent.videoFailed sampleVideo.userId sampleVideo.id "down") ∧
      (generateVideo (some sampleVideo) (failOnly 2 "down") "u" "t").result =
        Except.error "down" :=
  failed_run_recorded_and_rethrown sampleVideo 2 "down" "u" "t" (by decide)

/-- Claim C4: invoking either runner with an id for which no job record
exists fails with an error whose message says the video was not found, and
no record is created or mutated, no event emitted, no status written. -/
theorem generateVideo_notFound (failAt : Nat → Option String) (u t vid : String) :
    generateVideo none failAt u t =
      { record := none, events := [], statusWrites := [],
        result := Except.error "Video not found" } ∧
    generateVideoP0 vid none failAt =
      { record := none, events := [], statusWrites := [],
        result := Except.error ("Video " ++ vid ++ " not found") } :=
  ⟨rfl, rfl⟩

/-- Claim C5 fails on the code: in the part_000 runner a failing run sends
its terminal failed notification with progress 0, so the emitted
percentage sequence of a run failing at step 1 is (10, 25, 0), which is
not monotone. -/
theorem failing_run_pcts_not_monotone_cex :
    ¬ (progressPcts
        (generateVideoP0 "a1" (some sampleVideo) (failOnly 1 "boom")).events).Chain'
      (· ≤ ·) := by
  have h : progressPcts
      (generateVideoP0 "a1" (some sampleVideo) (failOnly 1 "boom")).events =
      [10, 25, 0] := rfl
  rw [h]
  norm_num [List.chain'_cons]

/-- Claim C5, amended: the progress percentages a single run emits are in
phase order and monotonically non-decreasing for every completing run of
both runners, and for every failing run of the videoservice.js runner
(whose terminal failed notification carries no percentage).  The exception
forced by the counterexample is the failing run of the part_000 runner,
whose terminal failed notification carries progress 0. -/
theorem progress_pcts_monotone (v : Video) (u t vid : String) (n : Nat) (msg : String) :
    (progressPcts (generateVideo (some v) (fun _ => none) u t).events).Chain' (· ≤ ·) ∧
    (progressPcts (generateVideoP0 vid (some v) (fun _ => none)).events).Chain' (· ≤ ·) ∧
    (progressPcts (generateVideo (some v) (failOnly n msg) u t).events).Chain' (· ≤ ·) := by
  refine ⟨?_, ?_, ?_⟩
  · have h : progressPcts (generateVideo (some v) (fun _ => none) u t).events =
        [0, 10, 30, 70, 90] := by
      simp [generateVideo, runServicePhases, servicePhases, progressPcts,
        SocketEvent.progressPct, Video.markAsCompleted]
    rw [h]; norm_num [List.chain'_cons]
  · have h : progressPcts (generateVideoP0 vid (some v) (fun _ => none)).events =
        [10, 25, 50, 75, 90, 100, 100] := by
      simp [generateVideoP0, runP0Steps, p0Steps, progressPcts,
        SocketEvent.progressPct, Video.markAsCompleted]
    rw [h]; norm_num [List.chain'_cons]
  · rcases n with _ | _ | _ | _ | m
    · have h : progressPcts (generateVideo (some v) (failOnly 0 msg) u t).events =
          [0, 10] := by
        simp [generateVideo, runServicePhases, servicePhases, progressPcts,
          SocketEvent.progressPct, failOnly, Video.markAsFailed]
      rw [h]; norm_num [List.chain'_cons]
    · have h : progressPcts (generateVideo (some v) (failOnly 1 msg) u t).events =
          [0, 10, 30] := by
        simp [generateVideo, runServicePhases, servicePhases, progressPcts,
          SocketEvent.progressPct, failOnly, Video.markAsFailed]
      rw [h]; norm_num [List.chain'_cons]
    · have h : progressPcts (generateVideo (some v) (failOnly 2 msg) u t).events =
          [0, 10, 30, 70] := by
        simp [generateVideo, runServicePhases, servicePhases, progressPcts,
          SocketEvent.progressPct, failOnly, Video.markAsFailed]
      rw [h]; norm_num [List.chain'_cons]
    · have h : progressPcts (generateVideo (some v) (failOnly 3 msg) u t).events =
          [0, 10, 30, 70, 90] := by
        simp [generateVideo, runServicePhases, servicePhases, progressPcts,
          SocketEvent.progressPct, failOnly, Video.markAsFailed]
      rw [h]; norm_num [List.chain'_cons]
    · have h0 : failOnly (m + 4) msg 0 = none := by
        unfold failOnly; rw [if_neg (by omega)]
      have h1 : failOnly (m + 4) msg 1 = none := by
        unfold failOnly; rw [if_neg (by omega)]
      have h2 : failOnly (m + 4) msg 2 = none := by
        unfold failOnly; rw [if_neg (by omega)]
      have h3 : failOnly (m + 4) msg 3 = none := by
        unfold failOnly; rw [if_neg (by omega)]
      have h : progressPcts (generateVideo (some v) (failOnly (m + 4) msg) u t).events =
          [0, 10, 30, 70, 90] := by
        simp [generateVideo, runServicePhases, servicePhases, progressPcts,
          SocketEvent.progressPct, h0, h1, h2, h3, Video.markAsCompleted]
      rw [h]; norm_num [List.chain'_cons]

/-- Claim C6: a run that throws during phase n (after phase n persisted its
percentage and before its work finished) leaves status failed, the
progress field still holding the last successfully recorded value — the
percentage of phase n, which is strictly positive, never reset to 0 — and
the failure reason populated with the exception message. -/
theorem failed_run_preserves_progress (v : Video) (n : Nat) (msg u t : String)
    (h : n < servicePhases.length) :
    ∃ vf, (generateVideo (some v) (failOnly n msg) u t).record = some vf ∧
      vf.status = Status.failed ∧ vf.metadataError = some msg ∧
      vf.processingProgress = (servicePhases.get ⟨n, h⟩).1 ∧
      0 < vf.processingProgress := by
  rcases n with _ | _ | _ | _ | m
  · exact ⟨_, rfl, rfl, rfl, rfl, show (0:Int) < 10 by norm_num⟩
  · exact ⟨_, rfl, rfl, rfl, rfl, show (0:Int) < 30 by norm_num⟩
  · exact ⟨_, rfl, rfl, rfl, rfl, show (0:Int) < 70 by norm_num⟩
  · exact ⟨_, rfl, rfl, rfl, rfl, show (0:Int) < 90 by norm_num⟩
  · exact absurd h (by simp [servicePhases])

/-- Witness for the C6 theorem at a concrete run failing in phase 1:
progress stays at 30. -/
theorem failed_run_preserves_progress_witness :
    ∃ vf, (generateVideo (some sampleVideo) (failOnly 1 "oops") "u" "t").record = some vf ∧
      vf.status = Status.failed ∧ vf.metadataError = some "oops" ∧
      vf.processingProgress = (servicePhases.get ⟨1, by decide⟩).1 ∧
      0 < vf.processingProgress :=
  failed_run_preserves_progress sampleVideo 1 "oops" "u" "t" (by decide)

/-- Claim C7 fails on the code: the runner has no pending-state guard, so
a previously failed job can be re-run, and `markAsCompleted` never clears
`metadata.error`.  A run on such a job in which every phase succeeds ends
with status completed, progress 100 and the output URL stored — yet with
the old failure reason still recorded, so the claim's "no failure reason"
is false. -/
theorem successful_rerun_keeps_failure_reason_cex :
    ∃ vf, (generateVideo (some failedVideo) (fun _ => none) "u" "t").record = some vf ∧
      vf.status = Status.completed ∧ vf.processingProgress = 100 ∧
      vf.videoUrl = some "u" ∧ vf.metadataError = some "boom" ∧
      (generateVideo (some failedVideo) (fun _ => none) "u" "t").result =
        Except.ok () :=
  ⟨_, rfl, rfl, rfl, rfl, rfl, rfl⟩

/-- Claim C7, amended: a run in which every phase succeeds ends with
status completed, progress 100, the output URL stored, a final completed
notification as the last event, and a normal return; the failure reason is
left exactly as it was before the run (`markAsCompleted` never clears
`metadata.error`), hence it is absent precisely when the job carried none
— as a freshly created pending job does. -/
theorem successful_run (v : Video) (u t : String) :
    ∃ vf, (generateVideo (some v) (fun _ => none) u t).record = some vf ∧
      vf.status = Status.completed ∧ vf.processingProgress = 100 ∧
      vf.videoUrl = some u ∧ vf.metadataError = v.metadataError ∧
      (generateVideo (some v) (fun _ => none) u t).events.getLast? =
        some (SocketEvent.videoCompleted v.userId v.id u t) ∧
      (generateVideo (some v) (fun _ => none) u t).result = Except.ok () := by
  by_cases ht : strTruthy (some t) <;>
    exact ⟨_, rfl, by simp [generateVideo, runServicePhases, servicePhases,
        Video.markAsCompleted, ht],
      by simp [generateVideo, runServicePhases, servicePhases,
        Video.markAsCompleted, ht],
      by simp [generateVideo, runServicePhases, servicePhases,
        Video.markAsCompleted, ht],
      by simp [generateVideo, runServicePhases, servicePhases,
        Video.markAsCompleted, ht],
      by simp [generateVideo, runServicePhases, servicePhases,
        Video.markAsCompleted, ht, List.getLast?],
      rfl⟩

/-- Claim C8: publishing a progress event to an owner whose room has zero
subscribers performs no delivery and completes without error; and
`emitProgress` absorbs any exception raised by the broadcast into a logged
warning, so nothing propagates to the job runner. -/
theorem emitProgress_noSubscribers (n : Notifier) (u : String)
    (h : n.subscribersOf ("user-" ++ u) = []) (df : Option String)
    (vid : String) (p : Int) (m : String) :
    emitProgress (some n) df u vid p m = { deliveries := [], warning := df } ∧
    n.publish u (SocketEvent.videoProgress u vid p m) = [] := by
  cases df <;> simp [emitProgress, Notifier.publish, h]

/-- Witness for the C8 theorem at the concrete empty notifier. -/
theorem emitProgress_noSubscribers_witness :
    emptyNotifier.subscribersOf ("user-" ++ "u1") = [] ∧
    emitProgress (some emptyNotifier) none "u1" "a1" 10 "Processing started" =
      { deliveries := [], warning := none } :=
  ⟨rfl, (emitProgress_noSubscribers emptyNotifier "u1" rfl none "a1" 10
    "Processing started").1⟩

/-- Claim C9: for every integer argument, `Video.updateProgress` stores
exactly min(100, max(0, p)) into processingProgress, which therefore
always lies in the interval 0 to 100. -/
theorem updateProgress_clamps (v : Video) (p : Int) :
    (v.updateProgress p).processingProgress = min 100 (max 0 p) ∧
    0 ≤ (v.updateProgress p).processingProgress ∧
    (v.updateProgress p).processingProgress ≤ 100 := by
  refine ⟨rfl, ?_, ?_⟩ <;> simp [Video.updateProgress]

/-- Claim C10: `Video.markAsCompleted` sets status, progress and videoUrl;
it sets thumbnailUrl exactly when the argument is truthy (in particular a
null or omitted thumbnail leaves the existing one unchanged, since
`strTruthy none = false`); and every other field of the record is
unchanged in every case. -/
theorem markAsCompleted_frame (v : Video) (url : String) (tu : Option String) :
    (v.markAsCompleted url tu).status = Status.completed ∧
    (v.markAsCompleted url tu).processingProgress = 100 ∧
    (v.markAsCompleted url tu).videoUrl = some url ∧
    (v.markAsCompleted url tu).thumbnailUrl =
      (if strTruthy tu then tu else v.thumbnailUrl) ∧
    (v.markAsCompleted url tu).id = v.id ∧
    (v.markAsCompleted url tu).title = v.title ∧
    (v.markAsCompleted url tu).description = v.description ∧
    (v.markAsCompleted url tu).prompt = v.prompt ∧
    (v.markAsCompleted url tu).duration = v.duration ∧
    (v.markAsCompleted url tu).resolution = v.resolution ∧
    (v.markAsCompleted url tu).fps = v.fps ∧
    (v.markAsCompleted url tu).style = v.style ∧
    (v.markAsCompleted url tu).mood = v.mood ∧
    (v.markAsCompleted url tu).category = v.category ∧
    (v.markAsCompleted url tu).tags = v.tags ∧
    (v.markAsCompleted url tu).metadataError = v.metadataError ∧
    (v.markAsCompleted url tu).metadataLastStatus = v.metadataLastStatus ∧
    (v.markAsCompleted url tu).isPublic = v.isPublic ∧
    (v.markAsCompleted url tu).views = v.views ∧
    (v.markAsCompleted url tu).likes = v.likes ∧
    (v.markAsCompleted url tu).userId = v.userId ∧
    (v.markAsCompleted url tu).scriptId = v.scriptId := by
  by_cases h : strTruthy tu <;> simp [Video.markAsCompleted, h]

end Backend
